import Mathlib

/-!
Verification development for the xAOD CPP transformer worker
(`transformer.py`): the job-processing retry loop (`callback`), the
external-transform failure classification (`transform_single_file`) and the
progress-log parser (`parse_output_logs`) are shallowly embedded and the
specified properties are proved about the embedding.
-/

namespace XaodTransformer

/-- Retry bound from the source: `MAX_RETRIES = 3`. -/
def MAX_RETRIES : Nat := 3

/-- Decoded inbound job message: the fields `callback` reads out of the JSON
body (`request-id`, `file-path`, `file-id`, `service-endpoint`, `chunk-size`). -/
structure TransformRequest where
  request_id : String
  file_path : String
  file_id : String
  service_endpoint : String
  chunk_size : Nat
deriving DecidableEq, Repr

/-- Environment observed by one invocation of the external transform step:
the exit status captured from `os.system`, whether the declared output path
exists afterwards, and the captured log text (`log.txt`). -/
structure TransformEnv where
  exit_status : Nat
  output_exists : Bool
  log_text : String
deriving DecidableEq, Repr

/-- Externally visible effects emitted while processing one job.  A
`publish` carries the structured dead-letter body: the original request
together with the `error` field added to it before `json.dumps`.  The
elapsed time (`round(tock - tick, 2)`) is abstracted as its printed value
and threaded through as a `String`. -/
inductive Event where
  | statusUpdate (file_id : String) (status_code : String) (info : String)
  | fileComplete (file_path : String) (file_id : String) (status : String)
      (num_messages : Nat) (total_time : String) (total_events : Nat) (total_bytes : Nat)
  | publish (exchange : String) (routing_key : String) (body_request : TransformRequest)
      (body_error : String)
  | uploadFile (request_id : String) (name : String) (path : String)
  | removeFile (path : String)
  | convert (path : String) (chunk_size : Nat)
  | ack
deriving DecidableEq, Repr

/-- `root_file = _file_path.replace('/', ':')` (single-character pattern, so
a character map). -/
def rootFile (req : TransformRequest) : String :=
  String.mk (req.file_path.toList.map fun c => if c = '/' then ':' else c)

/-- `output_path = '/home/atlas/' + root_file`. -/
def outputPath (req : TransformRequest) : String :=
  "/home/atlas/" ++ rootFile req

/-- Failure classification of `transform_single_file` (lines 228-232):
non-zero exit status first, otherwise a missing output file. -/
def reasonBad (env : TransformEnv) (output_path : String) : Option String :=
  if env.exit_status ≠ 0 then
    some ("Error return from transformer: " ++ toString env.exit_status)
  else if env.output_exists = false then
    some ("Output file " ++ output_path ++ " was not found")
  else
    none

/-- Message of the `RuntimeError` raised on a failed transform (lines
238-239): the reason followed by the captured log text verbatim. -/
def errMsg (file_path : String) (reason : String) (log_text : String) : String :=
  "Failed to transform input file " ++ file_path ++ ": " ++ reason
    ++ " -- errors: " ++ log_text

/-- Embedding of `transform_single_file` (lines 219-255): raises (returns
`.error`) exactly when the classification finds a reason; on success, when no
object store is configured, streams the output file to columnar batches
(the `uproot`/`ArrowWriter` section, modelled as a `convert` effect). -/
def transform_single_file (env : TransformEnv) (file_path : String)
    (output_path : String) (chunks : Nat) (osCfg : Bool) :
    Except String (List Event) :=
  match reasonBad env output_path with
  | some reason => .error (errMsg file_path reason env.log_text)
  | none => .ok (if osCfg then [] else [Event.convert output_path chunks])

/-- Effects of the success branch of the `try` block after the transform
returns (lines 176-187): optional upload and local-file removal, the
`complete` status update and the final `success` completion record. -/
def successTail (osCfg : Bool) (req : TransformRequest) (elapsed : String) :
    List Event :=
  (if osCfg then
    [Event.uploadFile req.request_id (rootFile req) (outputPath req),
     Event.removeFile (outputPath req)]
  else []) ++
  [Event.statusUpdate req.file_id "complete" ("Total time " ++ elapsed),
   Event.fileComplete req.file_path req.file_id "success" 0 elapsed 0 0]

/-- Effects of the final-failure branch (lines 195-205): dead-letter
publication, the `failure` completion record and the `failure` status. -/
def failureTail (req : TransformRequest) (err : String) : List Event :=
  [Event.publish "transformation_failures" (req.request_id ++ "_errors") req err,
   Event.fileComplete req.file_path req.file_id "failure" 0 "0" 0 0,
   Event.statusUpdate req.file_id "failure" ("error: " ++ err)]

/-- The `retry` status update posted on a non-final failed attempt (lines
211-214): the incremented retry counter and the error text truncated to its
first 1024 characters. -/
def retryEvent (req : TransformRequest) (n : Nat) (err : String) : Event :=
  Event.statusUpdate req.file_id "retry"
    ("Try: " ++ toString n ++ " error: " ++ err.take 1024)

/-- The `while not file_done` loop of `callback` (lines 166-214).  `envs n`
is the environment the external transform observes on attempt `n`
(1-indexed); `retries` is the current value of `file_retries`.  The loop
terminates within `MAX_RETRIES - retries` further attempts, so it is
expressed with that quantity as structural fuel; the fuel-exhausted case is
unreachable from the initial call. -/
def callbackLoop (osCfg : Bool) (req : TransformRequest) (elapsed : String)
    (envs : Nat → TransformEnv) : Nat → Nat → List Event
  | 0, _ => []
  | fuel + 1, retries =>
    match transform_single_file (envs (retries + 1)) req.file_path
        (outputPath req) req.chunk_size osCfg with
    | .ok evs => evs ++ successTail osCfg req elapsed
    | .error err =>
      if retries + 1 = MAX_RETRIES then
        failureTail req err
      else
        retryEvent req (retries + 1) err ::
          callbackLoop osCfg req elapsed envs fuel (retries + 1)

/-- Embedding of `callback` (lines 150-216): the `start` status update, the
retry loop, and the single queue acknowledgement after the loop exits. -/
def callback (osCfg : Bool) (req : TransformRequest) (elapsed : String)
    (envs : Nat → TransformEnv) : List Event :=
  Event.statusUpdate req.file_id "start" "xAOD Transformer" ::
    callbackLoop osCfg req elapsed envs MAX_RETRIES 0 ++ [Event.ack]

/-- Recognizes a status update with the given status code. -/
def isStatusCode (code : String) : Event → Bool
  | .statusUpdate _ c _ => c == code
  | _ => false

/-- Recognizes a completion record (`put_file_complete`). -/
def isFileComplete : Event → Bool
  | .fileComplete _ _ _ _ _ _ _ => true
  | _ => false

/-- Recognizes a dead-letter publication. -/
def isPublish : Event → Bool
  | .publish _ _ _ _ => true
  | _ => false

/-- Recognizes the queue acknowledgement. -/
def isAck : Event → Bool
  | .ack => true
  | _ => false

/-- Recognizes a streaming-conversion effect. -/
def isConvert : Event → Bool
  | .convert _ _ => true
  | _ => false

/-- Recognizes an object-store upload effect. -/
def isUpload : Event → Bool
  | .uploadFile _ _ _ => true
  | _ => false

/-- Effects of one fully successful attempt: the transform's own effects
followed by the success branch of the `try` block. -/
def successEvents (osCfg : Bool) (req : TransformRequest) (elapsed : String) :
    List Event :=
  (if osCfg then [] else [Event.convert (outputPath req) req.chunk_size]) ++
    successTail osCfg req elapsed

/-- Some attempt within the retry budget is classified good, so the job
reaches the success path. -/
def successReachable (req : TransformRequest) (envs : Nat → TransformEnv) : Prop :=
  ∃ n, 1 ≤ n ∧ n ≤ MAX_RETRIES ∧ reasonBad (envs n) (outputPath req) = none

/-- Strip an expected literal character sequence from the front of the
text, returning the remainder on success. -/
def dropLit : List Char → List Char → Option (List Char)
  | [], cs => some cs
  | _ :: _, [] => none
  | p :: ps, c :: cs => if c = p then dropLit ps cs else none

/-- Numeric value of a run of decimal digits, as `int()` reads the captured
group. -/
def digitsVal (ds : List Char) : Nat :=
  ds.foldl (fun a c => 10 * a + (c.toNat - 48)) 0

/-- Match of the pattern `Processing events \d+-(\d+)` anchored at the
front of the text, returning the captured trailing integer.  The greedy
`\d+` is a maximal digit run: a shorter run would leave a digit where the
literal `-` is required, so maximal munch is exact. -/
def matchTotalAt (cs : List Char) : Option Nat :=
  match dropLit "Processing events ".toList cs with
  | none => none
  | some rest =>
    if (rest.takeWhile Char.isDigit).isEmpty then none
    else
      match rest.dropWhile Char.isDigit with
      | '-' :: rest2 =>
        if (rest2.takeWhile Char.isDigit).isEmpty then none
        else some (digitsVal (rest2.takeWhile Char.isDigit))
      | _ => none

/-- Match of the pattern `Processed (\d+) events` anchored at the front of
the text, returning the captured integer. -/
def matchProcAt (cs : List Char) : Option Nat :=
  match dropLit "Processed ".toList cs with
  | none => none
  | some rest =>
    if (rest.takeWhile Char.isDigit).isEmpty then none
    else
      match dropLit " events".toList (rest.dropWhile Char.isDigit) with
      | some _ => some (digitsVal (rest.takeWhile Char.isDigit))
      | none => none

/-- Leftmost-match search (`re.search`): the value at the first position
where the total-events pattern matches. -/
def firstTotalAux : List Char → Option Nat
  | [] => none
  | c :: cs =>
    match matchTotalAt (c :: cs) with
    | some n => some n
    | none => firstTotalAux cs

/-- Iteration over all matches with last-value-wins (`re.finditer` driving
the assignment loop): the value at the last position where the
processed-events pattern matches.  Matches of this pattern can never
overlap, so the last match position agrees with the last non-overlapping
match. -/
def lastProcAux : List Char → Option Nat
  | [] => none
  | c :: cs =>
    match lastProcAux cs with
    | some n => some n
    | none => matchProcAt (c :: cs)

/-- Progress counters computed by `parse_output_logs` (lines 87-98). -/
structure ProgressCounts where
  total_events : Nat
  events_processed : Nat
deriving DecidableEq, Repr

/-- Embedding of `parse_output_logs` (lines 81-99) applied to the captured
log text: `total_events` from the first `Processing events \d+-(\d+)` match
(0 when absent), `events_processed` from the last `Processed (\d+) events`
match (0 when absent). -/
def parse_output_logs (buf : String) : ProgressCounts :=
  ⟨(firstTotalAux buf.toList).getD 0, (lastProcAux buf.toList).getD 0⟩

/-- Sample request used to instantiate the quantified theorems. -/
def req0 : TransformRequest :=
  ⟨"req-1", "data/file.root", "file-7", "http://servicex", 100⟩

/-- Environment of a good attempt: clean exit, output present. -/
def envOk : TransformEnv := ⟨0, true, "Processed 5 events"⟩

/-- Environment of a failing attempt: non-zero exit status. -/
def envBad : TransformEnv := ⟨1, true, "bad log"⟩

/-- Every attempt fails. -/
def envsAllBad : Nat → TransformEnv := fun _ => envBad

/-- Every attempt succeeds. -/
def envsAllOk : Nat → TransformEnv := fun _ => envOk

/-- The first attempt fails, later attempts succeed. -/
def envsFailOnce : Nat → TransformEnv := fun n => if n = 1 then envBad else envOk

/-- The first two attempts fail, the third succeeds. -/
def envsFailTwice : Nat → TransformEnv := fun n => if n ≤ 2 then envBad else envOk

/-- Agrees with `envsAllBad` on attempts 1 up to `MAX_RETRIES` but differs
beyond the retry budget. -/
def envsShort : Nat → TransformEnv :=
  fun n => if n ≤ MAX_RETRIES then envBad else envOk

/-- Trace shape when the first attempt's transform is classified good. -/
theorem callback_shape1 (osCfg : Bool) (req : TransformRequest)
    (elapsed : String) (envs : Nat → TransformEnv)
    (h1 : reasonBad (envs 1) (outputPath req) = none) :
    callback osCfg req elapsed envs =
      Event.statusUpdate req.file_id "start" "xAOD Transformer" ::
        successEvents osCfg req elapsed ++ [Event.ack] := by
  simp [callback, callbackLoop, transform_single_file, successEvents, h1]

/-- Trace shape when the first attempt fails and the second succeeds. -/
theorem callback_shape2 (osCfg : Bool) (req : TransformRequest)
    (elapsed : String) (envs : Nat → TransformEnv) (r1 : String)
    (h1 : reasonBad (envs 1) (outputPath req) = some r1)
    (h2 : reasonBad (envs 2) (outputPath req) = none) :
    callback osCfg req elapsed envs =
      Event.statusUpdate req.file_id "start" "xAOD Transformer" ::
        retryEvent req 1 (errMsg req.file_path r1 (envs 1).log_text) ::
        successEvents osCfg req elapsed ++ [Event.ack] := by
  simp [callback, callbackLoop, transform_single_file, successEvents, h1, h2,
    MAX_RETRIES]

/-- Trace shape when the first two attempts fail and the third succeeds. -/
theorem callback_shape3 (osCfg : Bool) (req : TransformRequest)
    (elapsed : String) (envs : Nat → TransformEnv) (r1 r2 : String)
    (h1 : reasonBad (envs 1) (outputPath req) = some r1)
    (h2 : reasonBad (envs 2) (outputPath req) = some r2)
    (h3 : reasonBad (envs 3) (outputPath req) = none) :
    callback osCfg req elapsed envs =
      Event.statusUpdate req.file_id "start" "xAOD Transformer" ::
        retryEvent req 1 (errMsg req.file_path r1 (envs 1).log_text) ::
        retryEvent req 2 (errMsg req.file_path r2 (envs 2).log_text) ::
        successEvents osCfg req elapsed ++ [Event.ack] := by
  simp [callback, callbackLoop, transform_single_file, successEvents, h1, h2,
    h3, MAX_RETRIES]

/-- Trace shape when all `MAX_RETRIES` attempts fail. -/
theorem callback_shape4 (osCfg : Bool) (req : TransformRequest)
    (elapsed : String) (envs : Nat → TransformEnv) (r1 r2 r3 : String)
    (h1 : reasonBad (envs 1) (outputPath req) = some r1)
    (h2 : reasonBad (envs 2) (outputPath req) = some r2)
    (h3 : reasonBad (envs 3) (outputPath req) = some r3) :
    callback osCfg req elapsed envs =
      Event.statusUpdate req.file_id "start" "xAOD Transformer" ::
        (retryEvent req 1 (errMsg req.file_path r1 (envs 1).log_text) ::
         retryEvent req 2 (errMsg req.file_path r2 (envs 2).log_text) ::
         failureTail req (errMsg req.file_path r3 (envs 3).log_text)) ++
        [Event.ack] := by
  simp [callback, callbackLoop, transform_single_file, h1, h2, h3, MAX_RETRIES]

/-- The trace depends only on the environments of the first `MAX_RETRIES`
attempts: environments beyond the retry budget are never consulted. -/
theorem callback_congr (osCfg : Bool) (req : TransformRequest) (elapsed : String)
    (envs envs' : Nat → TransformEnv)
    (h : ∀ n, 1 ≤ n → n ≤ MAX_RETRIES → envs' n = envs n) :
    callback osCfg req elapsed envs' = callback osCfg req elapsed envs := by
  have e1 : envs' 1 = envs 1 := h 1 (by decide) (by decide)
  have e2 : envs' 2 = envs 2 := h 2 (by decide) (by decide)
  have e3 : envs' 3 = envs 3 := h 3 (by decide) (by decide)
  simp [callback, callbackLoop, e1, e2, e3]

/-- A streaming-conversion effect appears in the trace exactly when no
object store is configured and the job reaches the success path. -/
theorem convert_mem_callback_iff (osCfg : Bool) (req : TransformRequest)
    (elapsed : String) (envs : Nat → TransformEnv) :
    (∃ p c, Event.convert p c ∈ callback osCfg req elapsed envs) ↔
      (osCfg = false ∧ successReachable req envs) := by
  rcases h1 : reasonBad (envs 1) (outputPath req) with _ | r1
  · rw [callback_shape1 osCfg req elapsed envs h1]
    cases osCfg <;> simp [successEvents, successTail, successReachable]
    exact ⟨1, by decide, by decide, h1⟩
  · rcases h2 : reasonBad (envs 2) (outputPath req) with _ | r2
    · rw [callback_shape2 osCfg req elapsed envs r1 h1 h2]
      cases osCfg <;> simp [successEvents, successTail, retryEvent, successReachable]
      exact ⟨2, by decide, by decide, h2⟩
    · rcases h3 : reasonBad (envs 3) (outputPath req) with _ | r3
      · rw [callback_shape3 osCfg req elapsed envs r1 r2 h1 h2 h3]
        cases osCfg <;> simp [successEvents, successTail, retryEvent, successReachable]
        exact ⟨3, by decide, by decide, h3⟩
      · rw [callback_shape4 osCfg req elapsed envs r1 r2 r3 h1 h2 h3]
        simp [failureTail, retryEvent, successReachable, MAX_RETRIES]
        intro _ n h1n h3n
        interval_cases n <;> simp_all

/-- An object-store upload effect appears in the trace exactly when an
object store is configured and the job reaches the success path. -/
theorem upload_mem_callback_iff (osCfg : Bool) (req : TransformRequest)
    (elapsed : String) (envs : Nat → TransformEnv) :
    (∃ i x p, Event.uploadFile i x p ∈ callback osCfg req elapsed envs) ↔
      (osCfg = true ∧ successReachable req envs) := by
  rcases h1 : reasonBad (envs 1) (outputPath req) with _ | r1
  · rw [callback_shape1 osCfg req elapsed envs h1]
    cases osCfg <;> simp [successEvents, successTail, successReachable]
    exact ⟨1, by decide, by decide, h1⟩
  · rcases h2 : reasonBad (envs 2) (outputPath req) with _ | r2
    · rw [callback_shape2 osCfg req elapsed envs r1 h1 h2]
      cases osCfg <;> simp [successEvents, successTail, retryEvent, successReachable]
      exact ⟨2, by decide, by decide, h2⟩
    · rcases h3 : reasonBad (envs 3) (outputPath req) with _ | r3
      · rw [callback_shape3 osCfg req elapsed envs r1 r2 h1 h2 h3]
        cases osCfg <;> simp [successEvents, successTail, retryEvent, successReachable]
        exact ⟨3, by decide, by decide, h3⟩
      · rw [callback_shape4 osCfg req elapsed envs r1 r2 r3 h1 h2 h3]
        simp [failureTail, retryEvent, successReachable, MAX_RETRIES]
        intro _ n h1n h3n
        interval_cases n <;> simp_all

/-- The total-events pattern never matches at the end of the text. -/
theorem matchTotalAt_nil : matchTotalAt [] = none := rfl

/-- The processed-events pattern never matches at the end of the text. -/
theorem matchProcAt_nil : matchProcAt [] = none := rfl

/-- Leftmost-match characterization of the search for the total-events
pattern: a match at position `i` with no match at any earlier position is
the one returned. -/
theorem firstTotalAux_eq_of_match (cs : List Char) :
    ∀ i n, matchTotalAt (cs.drop i) = some n →
      (∀ j, j < i → matchTotalAt (cs.drop j) = none) →
      firstTotalAux cs = some n := by
  induction cs with
  | nil =>
    intro i n h _
    rw [List.drop_nil] at h
    rw [matchTotalAt_nil] at h
    exact absurd h (by simp)
  | cons c cs ih =>
    intro i n h hmin
    cases i with
    | zero =>
      simp only [List.drop_zero] at h
      simp [firstTotalAux, h]
    | succ i =>
      have h0 : matchTotalAt (c :: cs) = none := by
        have := hmin 0 (Nat.succ_pos i)
        simpa using this
      have htail : firstTotalAux cs = some n :=
        ih i n (by simpa using h)
          (fun j hj => by simpa using hmin (j + 1) (Nat.succ_lt_succ hj))
      simp [firstTotalAux, h0, htail]

/-- When the total-events pattern matches at no position, the search is
empty. -/
theorem firstTotalAux_eq_none (cs : List Char)
    (h : ∀ j, j < cs.length → matchTotalAt (cs.drop j) = none) :
    firstTotalAux cs = none := by
  induction cs with
  | nil => rfl
  | cons c cs ih =>
    have h0 : matchTotalAt (c :: cs) = none := by simpa using h 0 (by simp)
    have htail : firstTotalAux cs = none :=
      ih (fun j hj => by simpa using h (j + 1) (by simpa using Nat.succ_lt_succ hj))
    simp [firstTotalAux, h0, htail]

/-- When the processed-events pattern matches at no position, the
last-value scan is empty. -/
theorem lastProcAux_eq_none (cs : List Char)
    (h : ∀ j, j < cs.length → matchProcAt (cs.drop j) = none) :
    lastProcAux cs = none := by
  induction cs with
  | nil => rfl
  | cons c cs ih =>
    have h0 : matchProcAt (c :: cs) = none := by simpa using h 0 (by simp)
    have htail : lastProcAux cs = none :=
      ih (fun j hj => by simpa using h (j + 1) (by simpa using Nat.succ_lt_succ hj))
    simp [lastProcAux, h0, htail]

/-- Last-match characterization of the processed-events scan: a match at
position `i` with no match at any later position is the one kept. -/
theorem lastProcAux_eq_of_match (cs : List Char) :
    ∀ i n, matchProcAt (cs.drop i) = some n →
      (∀ j, j < cs.length → i < j → matchProcAt (cs.drop j) = none) →
      lastProcAux cs = some n := by
  induction cs with
  | nil =>
    intro i n h _
    rw [List.drop_nil] at h
    rw [matchProcAt_nil] at h
    exact absurd h (by simp)
  | cons c cs ih =>
    intro i n h hmax
    cases i with
    | zero =>
      have hnone : lastProcAux cs = none := by
        refine lastProcAux_eq_none cs (fun j hj => ?_)
        have := hmax (j + 1) (by simpa using Nat.succ_lt_succ hj) (Nat.succ_pos j)
        simpa using this
      simp only [List.drop_zero] at h
      simp [lastProcAux, hnone, h]
    | succ i =>
      have htail : lastProcAux cs = some n :=
        ih i n (by simpa using h)
          (fun j hj hij => by
            simpa using hmax (j + 1) (by simpa using Nat.succ_lt_succ hj)
              (Nat.succ_lt_succ hij))
      simp [lastProcAux, htail]

/-- C1: for every inbound job message the loop reaches exactly one terminal
outcome — the trace ends in the single acknowledgement, preceded by exactly
one completion record (success or final failure); at most `MAX_RETRIES - 1`
retry updates are posted, so the retry counter never exceeds `MAX_RETRIES`;
and the trace is independent of attempt environments beyond `MAX_RETRIES`,
so at most `MAX_RETRIES` attempts are made. -/
theorem callback_terminal_outcome_unique_ack (osCfg : Bool)
    (req : TransformRequest) (elapsed : String) (envs : Nat → TransformEnv) :
    (∃ pre, callback osCfg req elapsed envs = pre ++ [Event.ack] ∧
       pre.countP isAck = 0 ∧ pre.countP isFileComplete = 1) ∧
    (callback osCfg req elapsed envs).countP (isStatusCode "retry") ≤
      MAX_RETRIES - 1 ∧
    (callback osCfg req elapsed envs).countP isAck = 1 ∧
    (∀ envs' : Nat → TransformEnv,
      (∀ n, 1 ≤ n → n ≤ MAX_RETRIES → envs' n = envs n) →
      callback osCfg req elapsed envs' = callback osCfg req elapsed envs) := by
  have main : (∃ pre, callback osCfg req elapsed envs = pre ++ [Event.ack] ∧
      pre.countP isAck = 0 ∧ pre.countP isFileComplete = 1) ∧
      (callback osCfg req elapsed envs).countP (isStatusCode "retry") ≤
        MAX_RETRIES - 1 ∧
      (callback osCfg req elapsed envs).countP isAck = 1 := by
    rcases h1 : reasonBad (envs 1) (outputPath req) with _ | r1
    · rw [callback_shape1 osCfg req elapsed envs h1]
      refine ⟨⟨Event.statusUpdate req.file_id "start" "xAOD Transformer" ::
        successEvents osCfg req elapsed, by simp, ?_, ?_⟩, ?_, ?_⟩ <;>
        cases osCfg <;>
          simp [successEvents, successTail, isAck, isFileComplete, isStatusCode,
            MAX_RETRIES]
    · rcases h2 : reasonBad (envs 2) (outputPath req) with _ | r2
      · rw [callback_shape2 osCfg req elapsed envs r1 h1 h2]
        refine ⟨⟨Event.statusUpdate req.file_id "start" "xAOD Transformer" ::
          retryEvent req 1 (errMsg req.file_path r1 (envs 1).log_text) ::
          successEvents osCfg req elapsed, by simp, ?_, ?_⟩, ?_, ?_⟩ <;>
          cases osCfg <;>
            simp [successEvents, successTail, isAck, isFileComplete, isStatusCode,
              retryEvent, MAX_RETRIES]
      · rcases h3 : reasonBad (envs 3) (outputPath req) with _ | r3
        · rw [callback_shape3 osCfg req elapsed envs r1 r2 h1 h2 h3]
          refine ⟨⟨Event.statusUpdate req.file_id "start" "xAOD Transformer" ::
            retryEvent req 1 (errMsg req.file_path r1 (envs 1).log_text) ::
            retryEvent req 2 (errMsg req.file_path r2 (envs 2).log_text) ::
            successEvents osCfg req elapsed, by simp, ?_, ?_⟩, ?_, ?_⟩ <;>
            cases osCfg <;>
              simp [successEvents, successTail, isAck, isFileComplete, isStatusCode,
                retryEvent, MAX_RETRIES]
        · rw [callback_shape4 osCfg req elapsed envs r1 r2 r3 h1 h2 h3]
          refine ⟨⟨Event.statusUpdate req.file_id "start" "xAOD Transformer" ::
            (retryEvent req 1 (errMsg req.file_path r1 (envs 1).log_text) ::
             retryEvent req 2 (errMsg req.file_path r2 (envs 2).log_text) ::
             failureTail req (errMsg req.file_path r3 (envs 3).log_text)),
            by simp, ?_, ?_⟩, ?_, ?_⟩ <;>
            simp [failureTail, isAck, isFileComplete, isStatusCode, retryEvent,
              MAX_RETRIES]
  exact ⟨main.1, main.2.1, main.2.2,
    fun envs' h => callback_congr osCfg req elapsed envs envs' h⟩

/-- C1 witness: the theorem applied to an all-failing job, exercising the
attempt-budget conjunct on environments that differ beyond the budget. -/
theorem callback_terminal_outcome_unique_ack_witness :
    callback true req0 "0.5" envsShort = callback true req0 "0.5" envsAllBad :=
  (callback_terminal_outcome_unique_ack true req0 "0.5" envsAllBad).2.2.2
    envsShort (fun n _ h2 => by simp [envsShort, envsAllBad, h2])

/-- C2: when the transform fails on all `MAX_RETRIES` attempts, the
retry/failure status updates posted are exactly `MAX_RETRIES - 1` `retry`
updates (attempt counts 1 and 2, in order) followed by one `failure`
update; exactly one dead-letter message is published and the message is
acknowledged exactly once. -/
theorem callback_exhausted_retries_posts (osCfg : Bool)
    (req : TransformRequest) (elapsed : String) (envs : Nat → TransformEnv)
    (r1 r2 r3 : String)
    (h1 : reasonBad (envs 1) (outputPath req) = some r1)
    (h2 : reasonBad (envs 2) (outputPath req) = some r2)
    (h3 : reasonBad (envs 3) (outputPath req) = some r3) :
    (callback osCfg req elapsed envs).filter
        (fun e => isStatusCode "retry" e || isStatusCode "failure" e) =
      [retryEvent req 1 (errMsg req.file_path r1 (envs 1).log_text),
       retryEvent req 2 (errMsg req.file_path r2 (envs 2).log_text),
       Event.statusUpdate req.file_id "failure"
         ("error: " ++ errMsg req.file_path r3 (envs 3).log_text)] ∧
    (callback osCfg req elapsed envs).countP isPublish = 1 ∧
    (callback osCfg req elapsed envs).countP isAck = 1 := by
  rw [callback_shape4 osCfg req elapsed envs r1 r2 r3 h1 h2 h3]
  refine ⟨?_, ?_, ?_⟩ <;>
    simp [failureTail, retryEvent, isStatusCode, isPublish, isAck]

/-- C2 witness: a concrete job whose three attempts all exit with status 1. -/
theorem callback_exhausted_retries_posts_witness :
    (callback true req0 "0.5" envsAllBad).filter
        (fun e => isStatusCode "retry" e || isStatusCode "failure" e) =
      [retryEvent req0 1 (errMsg req0.file_path "Error return from transformer: 1"
         (envsAllBad 1).log_text),
       retryEvent req0 2 (errMsg req0.file_path "Error return from transformer: 1"
         (envsAllBad 2).log_text),
       Event.statusUpdate req0.file_id "failure"
         ("error: " ++ errMsg req0.file_path "Error return from transformer: 1"
            (envsAllBad 3).log_text)] ∧
    (callback true req0 "0.5" envsAllBad).countP isPublish = 1 ∧
    (callback true req0 "0.5" envsAllBad).countP isAck = 1 :=
  callback_exhausted_retries_posts true req0 "0.5" envsAllBad
    "Error return from transformer: 1" "Error return from transformer: 1"
    "Error return from transformer: 1" (by decide) (by decide) (by decide)

/-- C3: `transform_single_file` raises exactly when the captured exit
status is non-zero or the output path does not exist afterwards, and the
raised message carries the failure reason and the captured log text
verbatim. -/
theorem transform_single_file_error_iff (env : TransformEnv)
    (fp outp : String) (chunks : Nat) (osCfg : Bool) :
    ((∃ msg, transform_single_file env fp outp chunks osCfg = Except.error msg) ↔
      (env.exit_status ≠ 0 ∨ env.output_exists = false)) ∧
    (∀ msg, transform_single_file env fp outp chunks osCfg = Except.error msg →
      msg = "Failed to transform input file " ++ fp ++ ": " ++
        (if env.exit_status ≠ 0 then
          "Error return from transformer: " ++ toString env.exit_status
        else "Output file " ++ outp ++ " was not found") ++
        " -- errors: " ++ env.log_text) := by
  rcases env with ⟨r, ex, log⟩
  by_cases hr : r = 0 <;> cases ex <;>
    simp [transform_single_file, reasonBad, errMsg, hr]

/-- C3 witness: clean exit status but absent output path is classified as a
failure carrying the log text. -/
theorem transform_single_file_error_iff_witness :
    ((0 : Nat) ≠ 0 ∨ (false : Bool) = false) ∧
    "Failed to transform input file in.root: Output file /out was not found -- errors: captured log" =
      "Failed to transform input file " ++ "in.root" ++ ": " ++
        (if (0 : Nat) ≠ 0 then "Error return from transformer: " ++ toString (0 : Nat)
         else "Output file " ++ "/out" ++ " was not found") ++
        " -- errors: " ++ "captured log" :=
  ⟨(transform_single_file_error_iff ⟨0, false, "captured log"⟩ "in.root" "/out" 7 true).1.mp
      ⟨"Failed to transform input file in.root: Output file /out was not found -- errors: captured log",
        rfl⟩,
    (transform_single_file_error_iff ⟨0, false, "captured log"⟩ "in.root" "/out" 7 true).2
      "Failed to transform input file in.root: Output file /out was not found -- errors: captured log"
      rfl⟩

/-- C4: `total_events` is the integer captured by the first occurrence of
the `Processing events \d+-(\d+)` pattern and 0 when none exists;
`events_processed` is the integer captured by the last occurrence of the
`Processed (\d+) events` pattern and 0 when none exists; and the two
concrete examples of the specification evaluate as stated. -/
theorem parse_output_logs_spec :
    (∀ buf : String, ∀ i n, matchTotalAt (buf.toList.drop i) = some n →
      (∀ j, j < i → matchTotalAt (buf.toList.drop j) = none) →
      (parse_output_logs buf).total_events = n) ∧
    (∀ buf : String,
      (∀ j, j < buf.toList.length → matchTotalAt (buf.toList.drop j) = none) →
      (parse_output_logs buf).total_events = 0) ∧
    (∀ buf : String, ∀ i n, matchProcAt (buf.toList.drop i) = some n →
      (∀ j, j < buf.toList.length → i < j → matchProcAt (buf.toList.drop j) = none) →
      (parse_output_logs buf).events_processed = n) ∧
    (∀ buf : String,
      (∀ j, j < buf.toList.length → matchProcAt (buf.toList.drop j) = none) →
      (parse_output_logs buf).events_processed = 0) ∧
    parse_output_logs
        "Processing events 1-500\nProcessed 100 events\nProcessed 250 events" =
      ⟨500, 250⟩ ∧
    parse_output_logs "no matching lines" = ⟨0, 0⟩ := by
  refine ⟨?_, ?_, ?_, ?_, by decide, by decide⟩
  · intro buf i n h hmin
    show (firstTotalAux buf.toList).getD 0 = n
    rw [firstTotalAux_eq_of_match buf.toList i n h hmin]
    rfl
  · intro buf h
    show (firstTotalAux buf.toList).getD 0 = 0
    rw [firstTotalAux_eq_none buf.toList h]
    rfl
  · intro buf i n h hmax
    show (lastProcAux buf.toList).getD 0 = n
    rw [lastProcAux_eq_of_match buf.toList i n h hmax]
    rfl
  · intro buf h
    show (lastProcAux buf.toList).getD 0 = 0
    rw [lastProcAux_eq_none buf.toList h]
    rfl

/-- C4 witness: the first-occurrence and last-occurrence clauses applied to
concrete log texts. -/
theorem parse_output_logs_spec_witness :
    (parse_output_logs "Processing events 1-500").total_events = 500 ∧
    (parse_output_logs "Processed 7 events").events_processed = 7 :=
  ⟨parse_output_logs_spec.1 "Processing events 1-500" 0 500 (by decide)
      (fun j hj => absurd hj (Nat.not_lt_zero j)),
    parse_output_logs_spec.2.2.1 "Processed 7 events" 0 7 (by decide) (by decide)⟩

/-- C5: for a job failing on exactly `k < MAX_RETRIES` attempts and then
succeeding, exactly `k` retry updates are posted, carrying attempt counts 1
through `k` in increasing order, and the job reaches the success outcome,
posting one `complete` update. -/
theorem callback_transient_failures_then_success (osCfg : Bool)
    (req : TransformRequest) (elapsed : String) (envs : Nat → TransformEnv)
    (k : Nat) (rs : Nat → String) (hk : k < MAX_RETRIES)
    (hfail : ∀ i, i ≤ k → 1 ≤ i → reasonBad (envs i) (outputPath req) = some (rs i))
    (hsucc : reasonBad (envs (k + 1)) (outputPath req) = none) :
    (callback osCfg req elapsed envs).filter (isStatusCode "retry") =
      (List.range k).map (fun i =>
        retryEvent req (i + 1)
          (errMsg req.file_path (rs (i + 1)) ((envs (i + 1)).log_text))) ∧
    (callback osCfg req elapsed envs).countP (isStatusCode "complete") = 1 := by
  have hk3 : k < 3 := hk
  interval_cases k
  · rw [callback_shape1 osCfg req elapsed envs (by simpa using hsucc)]
    cases osCfg <;> simp [successEvents, successTail, isStatusCode]
  · rw [callback_shape2 osCfg req elapsed envs (rs 1)
      (hfail 1 (by decide) (by decide)) (by simpa using hsucc)]
    cases osCfg <;>
      simp [successEvents, successTail, retryEvent, isStatusCode, List.range_succ]
  · rw [callback_shape3 osCfg req elapsed envs (rs 1) (rs 2)
      (hfail 1 (by decide) (by decide)) (hfail 2 (by decide) (by decide))
      (by simpa using hsucc)]
    cases osCfg <;>
      simp [successEvents, successTail, retryEvent, isStatusCode, List.range_succ]

/-- C5 witness: two failing attempts followed by a success. -/
theorem callback_transient_failures_then_success_witness :
    (callback false req0 "1.0" envsFailTwice).filter (isStatusCode "retry") =
      (List.range 2).map (fun i =>
        retryEvent req0 (i + 1)
          (errMsg req0.file_path "Error return from transformer: 1"
            ((envsFailTwice (i + 1)).log_text))) ∧
    (callback false req0 "1.0" envsFailTwice).countP (isStatusCode "complete") = 1 :=
  callback_transient_failures_then_success false req0 "1.0" envsFailTwice 2
    (fun _ => "Error return from transformer: 1") (by decide) (by decide) (by decide)

/-- C6: for a job whose transform succeeds on the first attempt, exactly
one `start` and one `complete` status update are posted, and no `retry`
update is posted. -/
theorem callback_first_attempt_success_posts (osCfg : Bool)
    (req : TransformRequest) (elapsed : String) (envs : Nat → TransformEnv)
    (h1 : reasonBad (envs 1) (outputPath req) = none) :
    (callback osCfg req elapsed envs).countP (isStatusCode "start") = 1 ∧
    (callback osCfg req elapsed envs).countP (isStatusCode "complete") = 1 ∧
    (callback osCfg req elapsed envs).countP (isStatusCode "retry") = 0 := by
  rw [callback_shape1 osCfg req elapsed envs h1]
  cases osCfg <;> simp [successEvents, successTail, isStatusCode]

/-- C6 witness: a concrete job succeeding on the first attempt. -/
theorem callback_first_attempt_success_posts_witness :
    (callback true req0 "2.0" envsAllOk).countP (isStatusCode "start") = 1 ∧
    (callback true req0 "2.0" envsAllOk).countP (isStatusCode "complete") = 1 ∧
    (callback true req0 "2.0" envsAllOk).countP (isStatusCode "retry") = 0 :=
  callback_first_attempt_success_posts true req0 "2.0" envsAllOk (by decide)

/-- C7: every `retry` status update in a trace belongs to a failed
non-final attempt `n` and carries the info string built from the attempt
count `n` and that failure's error message truncated to its first 1024
characters. -/
theorem callback_retry_update_info (osCfg : Bool) (req : TransformRequest)
    (elapsed : String) (envs : Nat → TransformEnv) (fid info : String)
    (hmem : Event.statusUpdate fid "retry" info ∈ callback osCfg req elapsed envs) :
    ∃ n msg, 1 ≤ n ∧ n < MAX_RETRIES ∧
      transform_single_file (envs n) req.file_path (outputPath req)
        req.chunk_size osCfg = Except.error msg ∧
      info = "Try: " ++ toString n ++ " error: " ++ msg.take 1024 := by
  rcases h1 : reasonBad (envs 1) (outputPath req) with _ | r1
  · rw [callback_shape1 osCfg req elapsed envs h1] at hmem
    cases osCfg <;> simp [successEvents, successTail] at hmem
  · rcases h2 : reasonBad (envs 2) (outputPath req) with _ | r2
    · rw [callback_shape2 osCfg req elapsed envs r1 h1 h2] at hmem
      cases osCfg <;>
        simp [successEvents, successTail, retryEvent] at hmem <;>
        exact ⟨1, errMsg req.file_path r1 (envs 1).log_text, by decide, by decide,
          by simp [transform_single_file, h1], by simp [hmem.2]⟩
    · rcases h3 : reasonBad (envs 3) (outputPath req) with _ | r3
      · rw [callback_shape3 osCfg req elapsed envs r1 r2 h1 h2 h3] at hmem
        cases osCfg <;> simp [successEvents, successTail, retryEvent] at hmem <;>
          rcases hmem with ⟨_, hinfo⟩ | ⟨_, hinfo⟩
        · exact ⟨1, errMsg req.file_path r1 (envs 1).log_text, by decide, by decide,
            by simp [transform_single_file, h1], by simp [hinfo]⟩
        · exact ⟨2, errMsg req.file_path r2 (envs 2).log_text, by decide, by decide,
            by simp [transform_single_file, h2], by simp [hinfo]⟩
        · exact ⟨1, errMsg req.file_path r1 (envs 1).log_text, by decide, by decide,
            by simp [transform_single_file, h1], by simp [hinfo]⟩
        · exact ⟨2, errMsg req.file_path r2 (envs 2).log_text, by decide, by decide,
            by simp [transform_single_file, h2], by simp [hinfo]⟩
      · rw [callback_shape4 osCfg req elapsed envs r1 r2 r3 h1 h2 h3] at hmem
        simp [failureTail, retryEvent] at hmem
        rcases hmem with ⟨_, hinfo⟩ | ⟨_, hinfo⟩
        · exact ⟨1, errMsg req.file_path r1 (envs 1).log_text, by decide, by decide,
            by simp [transform_single_file, h1], by simp [hinfo]⟩
        · exact ⟨2, errMsg req.file_path r2 (envs 2).log_text, by decide, by decide,
            by simp [transform_single_file, h2], by simp [hinfo]⟩

/-- C7 witness: the retry update of a job whose first attempt fails. -/
theorem callback_retry_update_info_witness :
    ∃ n msg, 1 ≤ n ∧ n < MAX_RETRIES ∧
      transform_single_file (envsFailOnce n) req0.file_path (outputPath req0)
        req0.chunk_size false = Except.error msg ∧
      ("Try: " ++ toString 1 ++ " error: " ++
        (errMsg req0.file_path "Error return from transformer: 1"
          ((envsFailOnce 1).log_text)).take 1024) =
        "Try: " ++ toString n ++ " error: " ++ msg.take 1024 :=
  callback_retry_update_info false req0 "1.0" envsFailOnce req0.file_id
    ("Try: " ++ toString 1 ++ " error: " ++
      (errMsg req0.file_path "Error return from transformer: 1"
        ((envsFailOnce 1).log_text)).take 1024)
    (by
      rw [callback_shape2 false req0 "1.0" envsFailOnce
        "Error return from transformer: 1" (by decide) (by decide)]
      exact List.mem_cons_of_mem _ (List.mem_cons_self _ _))

/-- C8: on the final-failure transition the dead-letter message is
published exactly once, on the `transformation_failures` exchange, with
routing key `request_id ++ "_errors"` and body the original request
augmented with the final attempt's error text. -/
theorem callback_deadletter_on_final_failure (osCfg : Bool)
    (req : TransformRequest) (elapsed : String) (envs : Nat → TransformEnv)
    (r1 r2 r3 : String)
    (h1 : reasonBad (envs 1) (outputPath req) = some r1)
    (h2 : reasonBad (envs 2) (outputPath req) = some r2)
    (h3 : reasonBad (envs 3) (outputPath req) = some r3) :
    (callback osCfg req elapsed envs).filter isPublish =
      [Event.publish "transformation_failures" (req.request_id ++ "_errors") req
        (errMsg req.file_path r3 (envs 3).log_text)] ∧
    transform_single_file (envs MAX_RETRIES) req.file_path (outputPath req)
        req.chunk_size osCfg =
      Except.error (errMsg req.file_path r3 (envs 3).log_text) := by
  refine ⟨?_, ?_⟩
  · rw [callback_shape4 osCfg req elapsed envs r1 r2 r3 h1 h2 h3]
    simp [failureTail, retryEvent, isPublish]
  · simp [transform_single_file, MAX_RETRIES, h3]

/-- C8 witness: the dead-letter publication of a concrete all-failing job. -/
theorem callback_deadletter_on_final_failure_witness :
    (callback false req0 "0.5" envsAllBad).filter isPublish =
      [Event.publish "transformation_failures" (req0.request_id ++ "_errors") req0
        (errMsg req0.file_path "Error return from transformer: 1"
          (envsAllBad 3).log_text)] ∧
    transform_single_file (envsAllBad MAX_RETRIES) req0.file_path (outputPath req0)
        req0.chunk_size false =
      Except.error (errMsg req0.file_path "Error return from transformer: 1"
        (envsAllBad 3).log_text) :=
  callback_deadletter_on_final_failure false req0 "0.5" envsAllBad
    "Error return from transformer: 1" "Error return from transformer: 1"
    "Error return from transformer: 1" (by decide) (by decide) (by decide)

/-- C9: every success completion record in a trace reports `num_messages`,
`total_events` and `total_bytes` equal to 0 and carries the measured
elapsed time, whatever the attempt environments (and hence however many
events the logs report) were. -/
theorem callback_success_report_zeroed (osCfg : Bool) (req : TransformRequest)
    (elapsed : String) (envs : Nat → TransformEnv) (fp fid : String)
    (nm : Nat) (t : String) (te tb : Nat)
    (hmem : Event.fileComplete fp fid "success" nm t te tb ∈
      callback osCfg req elapsed envs) :
    nm = 0 ∧ te = 0 ∧ tb = 0 ∧ t = elapsed := by
  rcases h1 : reasonBad (envs 1) (outputPath req) with _ | r1
  · rw [callback_shape1 osCfg req elapsed envs h1] at hmem
    cases osCfg <;> simp [successEvents, successTail] at hmem <;>
      exact ⟨hmem.2.2.1, hmem.2.2.2.2.1, hmem.2.2.2.2.2, hmem.2.2.2.1⟩
  · rcases h2 : reasonBad (envs 2) (outputPath req) with _ | r2
    · rw [callback_shape2 osCfg req elapsed envs r1 h1 h2] at hmem
      cases osCfg <;> simp [successEvents, successTail, retryEvent] at hmem <;>
        exact ⟨hmem.2.2.1, hmem.2.2.2.2.1, hmem.2.2.2.2.2, hmem.2.2.2.1⟩
    · rcases h3 : reasonBad (envs 3) (outputPath req) with _ | r3
      · rw [callback_shape3 osCfg req elapsed envs r1 r2 h1 h2 h3] at hmem
        cases osCfg <;> simp [successEvents, successTail, retryEvent] at hmem <;>
          exact ⟨hmem.2.2.1, hmem.2.2.2.2.1, hmem.2.2.2.2.2, hmem.2.2.2.1⟩
      · rw [callback_shape4 osCfg req elapsed envs r1 r2 r3 h1 h2 h3] at hmem
        simp [failureTail, retryEvent] at hmem

/-- C9 witness: the success completion record of a concrete first-attempt
success. -/
theorem callback_success_report_zeroed_witness :
    (0 : Nat) = 0 ∧ (0 : Nat) = 0 ∧ (0 : Nat) = 0 ∧ "2.0" = "2.0" :=
  callback_success_report_zeroed true req0 "2.0" envsAllOk req0.file_path
    req0.file_id 0 "2.0" 0 0 (by decide)

/-- C10 counterexample: with no object store configured but every attempt
failing, no streaming conversion runs, so the unconditional "the conversion
runs if and only if no object store handle is configured" is false on the
code. -/
theorem callback_convert_iff_counterexample :
    ¬((∃ p c, Event.convert p c ∈ callback false req0 "0.0" envsAllBad) ↔
      (false : Bool) = false) := by
  intro h
  rcases h.mpr rfl with ⟨p, c, hmem⟩
  have hco := (convert_mem_callback_iff false req0 "0.0" envsAllBad).mp ⟨p, c, hmem⟩
  rcases hco.2 with ⟨n, h1n, h3n, hnone⟩
  simp [envsAllBad, envBad, reasonBad] at hnone

/-- C10 (amended): conversion effects occur only when no object store is
configured and upload effects only when one is, so no job ever performs
both; and for a job that reaches the success path, the conversion runs if
and only if no object store handle is configured, and the upload runs if
and only if one is configured. -/
theorem callback_convert_upload_exclusive (osCfg : Bool)
    (req : TransformRequest) (elapsed : String) (envs : Nat → TransformEnv) :
    ((∃ p c, Event.convert p c ∈ callback osCfg req elapsed envs) → osCfg = false) ∧
    ((∃ i x p, Event.uploadFile i x p ∈ callback osCfg req elapsed envs) → osCfg = true) ∧
    ¬((∃ p c, Event.convert p c ∈ callback osCfg req elapsed envs) ∧
      (∃ i x p, Event.uploadFile i x p ∈ callback osCfg req elapsed envs)) ∧
    (successReachable req envs →
      ((osCfg = false ↔ (∃ p c, Event.convert p c ∈ callback osCfg req elapsed envs)) ∧
       (osCfg = true ↔ (∃ i x p, Event.uploadFile i x p ∈ callback osCfg req elapsed envs)))) := by
  have hc := convert_mem_callback_iff osCfg req elapsed envs
  have hu := upload_mem_callback_iff osCfg req elapsed envs
  refine ⟨fun h => (hc.mp h).1, fun h => (hu.mp h).1, ?_, ?_⟩
  · rintro ⟨hx, hy⟩
    have h1 := (hc.mp hx).1
    have h2 := (hu.mp hy).1
    simp [h1] at h2
  · intro hs
    exact ⟨⟨fun h0 => hc.mpr ⟨h0, hs⟩, fun h => (hc.mp h).1⟩,
      ⟨fun h1 => hu.mpr ⟨h1, hs⟩, fun h => (hu.mp h).1⟩⟩

/-- C10 witness: the amended equivalence exercised on a first-attempt
success with no object store configured. -/
theorem callback_convert_upload_exclusive_witness :
    ((false : Bool) = false ↔
      (∃ p c, Event.convert p c ∈ callback false req0 "3.0" envsAllOk)) ∧
    ((false : Bool) = true ↔
      (∃ i x p, Event.uploadFile i x p ∈ callback false req0 "3.0" envsAllOk)) :=
  (callback_convert_upload_exclusive false req0 "3.0" envsAllOk).2.2.2
    ⟨1, by decide, by decide, by decide⟩

end XaodTransformer
